import Mathlib

/-!
Verification of the agent-pipeline repository's stated behaviour against its
source. Pure fragments of the TypeScript UI / API-client code are embedded as
Lean definitions; the backend orchestrator (absent from the source tree, known
only through its frontend callers and the design document) is modelled from the
design document where a claim depends on it, each such definition marked
`Modelled from the spec`.
-/

/- ===== Embedding of src/unnamed/part_013 (lib/api.ts) ===== -/

/-- Top-level field names of the TypeScript interface `PipelineRunResponse`
(src/unnamed/part_013 lines 3-25), the declared return type of `runPipeline`:
`status`, `message`, `domain_reports`, `final_tips_alerts`, `storage_result`,
`timestamp`. -/
def pipelineRunResponseFields : List String :=
  ["status", "message", "domain_reports", "final_tips_alerts", "storage_result", "timestamp"]

/-- Field names of the nested `final_tips_alerts` object of
`PipelineRunResponse` (src/unnamed/part_013 lines 7-13). -/
def finalTipsAlertsFields : List String :=
  ["tips", "alerts"]

/-- Field names of the nested `storage_result` object of `PipelineRunResponse`
(src/unnamed/part_013 lines 14-23): note that `report_id` lives here. -/
def storageResultFields : List String :=
  ["status", "storage_paths", "report_id", "timestamp"]

/-- Field names of the `storage_paths` object nested inside `storage_result`
(src/unnamed/part_013 lines 16-20). -/
def storagePathsFields : List String :=
  ["merged_summary", "tips_alerts", "domain_reports"]

/- ===== Embedding of the impact-level conversion
   (src/unnamed/part_012 line 73 in fetchReports, and identically
   src/unnamed/part_010 line 61 in fetchReport) ===== -/

/-- The four impact labels of the UI's `'Low' | 'Medium' | 'High' | 'Critical'`
union type. -/
inductive ImpactLevel where
  | low
  | medium
  | high
  | critical
deriving DecidableEq, Repr

/-- The conversion `report.report_alerts > 0 ? 'High' : 'Medium'` applied to
each record by `fetchReports` (src/unnamed/part_012 line 73) and by
`fetchReport` (src/unnamed/part_010 line 61). -/
def reportImpactLevel (report_alerts : Int) : ImpactLevel :=
  if report_alerts > 0 then .high else .medium

/- ===== Embedding of the alert-severity labelling
   (src/unnamed/part_015 lines 73-85; the same two functions appear in
   src/ui/components/tips-alerts.tsx lines 94-105) ===== -/

/-- The four severity labels returned by `getAlertLevelText`. -/
inductive AlertSeverityLabel where
  | low
  | medium
  | high
  | critical
deriving DecidableEq, Repr

/-- `getAlertLevelText` (src/unnamed/part_015 lines 80-85):
level ≥ 5 ↦ Critical, level ≥ 4 ↦ High, level ≥ 3 ↦ Medium, else Low. -/
def getAlertLevelText (level : Int) : AlertSeverityLabel :=
  if level ≥ 5 then .critical
  else if level ≥ 4 then .high
  else if level ≥ 3 then .medium
  else .low

/-- `getAlertLevelColor` (src/unnamed/part_015 lines 73-78), with the same
threshold structure as `getAlertLevelText`, returning the CSS class string. -/
def getAlertLevelColor (level : Int) : String :=
  if level ≥ 5 then ("bg-red-100 text-red-800 border-red-200 dark:bg-red-900/30 dark:text-red-400 dark:border-red-800")
  else if level ≥ 4 then ("bg-orange-100 text-orange-800 border-orange-200 dark:bg-orange-900/30 dark:text-orange-400 dark:border-orange-800")
  else if level ≥ 3 then ("bg-yellow-100 text-yellow-800 border-yellow-200 dark:bg-yellow-900/30 dark:text-yellow-400 dark:border-yellow-800")
  else ("bg-blue-100 text-blue-800 border-blue-200 dark:bg-blue-900/30 dark:text-blue-400 dark:border-blue-800")

/-- Numeric rank of a severity label under the order
Low < Medium < High < Critical. -/
def severityRank : AlertSeverityLabel → Nat
  | .low => 0
  | .medium => 1
  | .high => 2
  | .critical => 3

/- ===== Embedding of the streaming chat consumer
   (src/frontend/src/stores/agentStore.ts, sendStreamingMessage,
   lines 223-264) ===== -/

/-- The line-processing loop of `sendStreamingMessage`: for each line, if it
starts with `data: ` the payload is `line.slice(6)`; payload `[DONE]` stops the
loop (the accumulated content is left as is), any other payload is appended to
`accumulatedContent`; non-`data: ` lines are skipped. Returns the final
accumulated content together with whether the loop returned via `[DONE]`. -/
def consumeStreamLines : List String → String → String × Bool
  | [], acc => (acc, false)
  | line :: rest, acc =>
    if line.startsWith ("data: ") then
      let payload := line.drop 6
      if payload = "[DONE]" then (acc, true)
      else consumeStreamLines rest (acc ++ payload)
    else consumeStreamLines rest acc

/-- The payloads of the `data: `-framed lines, in arrival order. -/
def dataPayloads : List String → List String
  | [] => []
  | line :: rest =>
    if line.startsWith ("data: ") then line.drop 6 :: dataPayloads rest
    else dataPayloads rest

/-- The payloads that arrive strictly before the first `[DONE]` payload. -/
def payloadsBeforeDone (lines : List String) : List String :=
  (dataPayloads lines).takeWhile (fun p => p != "[DONE]")

/-- Whether some `data: ` frame carries the terminator payload `[DONE]`. -/
def sawDone (lines : List String) : Bool :=
  (dataPayloads lines).any (fun p => p == "[DONE]")

/-- Concatenation of a list of strings, in order. -/
def concatAll : List String → String
  | [] => ""
  | s :: ss => s ++ concatAll ss

/- ===== Embedding of the tips rendering
   (src/unnamed/part_015 lines 146-168,
   `tipsAlertsData.tips.map((tip, index) => ... Strategic Tip #{index + 1})`)
   ===== -/

/-- One rendered tip card: the displayed priority number and the tip text. -/
structure RenderedTip where
  priority : Nat
  text : String
deriving DecidableEq, Repr

/-- `renderTipsFrom k tips` renders the tips list starting at 0-based position
`k`: position i gets the displayed priority i + 1 (the `index + 1` in
`Strategic Tip #{index + 1}`), in the order of the `tips.map` traversal. -/
def renderTipsFrom (k : Nat) : List String → List RenderedTip
  | [] => []
  | t :: ts => { priority := k + 1, text := t } :: renderTipsFrom (k + 1) ts

/-- The tips tab rendering of src/unnamed/part_015 lines 146-168: the whole
tips sequence in order, position i displayed as `Strategic Tip #(i+1)`. -/
def renderTips (tips : List String) : List RenderedTip :=
  renderTipsFrom 0 tips

/- ===================== Helper lemmas ===================== -/

theorem renderTipsFrom_map_text (k : Nat) (ts : List String) :
    (renderTipsFrom k ts).map RenderedTip.text = ts := by
  induction ts generalizing k with
  | nil => rfl
  | cons t ts ih => simp [renderTipsFrom, ih]

theorem renderTipsFrom_map_priority (k : Nat) (ts : List String) :
    (renderTipsFrom k ts).map RenderedTip.priority = List.range' (k + 1) ts.length := by
  induction ts generalizing k with
  | nil => rfl
  | cons t ts ih => simp [renderTipsFrom, ih, List.range'_succ]

/- ===================== Theorems ===================== -/

/-- C1 (counterexample): contrary to the claim, `report_id` is not a top-level
field of `PipelineRunResponse`; it is a field of the nested `storage_result`
object. -/
theorem report_id_not_top_level_counterexample :
    "report_id" ∉ pipelineRunResponseFields ∧ "report_id" ∈ storageResultFields := by
  decide

/-- C1 (amended): a successful `runPipeline` call returns a value whose declared
type has `status`, `domain_reports`, `final_tips_alerts` and `storage_result`
(together with `message` and `timestamp`) at its top level, while `report_id`
is a field of the nested `storage_result` object rather than of the top
level. -/
theorem pipelineRunResponse_top_level_fields :
    "status" ∈ pipelineRunResponseFields ∧
    "domain_reports" ∈ pipelineRunResponseFields ∧
    "final_tips_alerts" ∈ pipelineRunResponseFields ∧
    "storage_result" ∈ pipelineRunResponseFields ∧
    "report_id" ∉ pipelineRunResponseFields ∧
    "report_id" ∈ storageResultFields := by
  decide

/-- C8: the reports-list / report-detail conversion assigns impact `High`
exactly when the record's `report_alerts` count is positive and `Medium`
otherwise; it never produces `Low` or `Critical`. -/
theorem reportImpactLevel_high_iff :
    ∀ report_alerts : Int,
      (reportImpactLevel report_alerts = ImpactLevel.high ↔ 0 < report_alerts) ∧
      (reportImpactLevel report_alerts = ImpactLevel.medium ↔ ¬ 0 < report_alerts) ∧
      reportImpactLevel report_alerts ≠ ImpactLevel.low ∧
      reportImpactLevel report_alerts ≠ ImpactLevel.critical := by
  intro a
  unfold reportImpactLevel
  split_ifs with h <;> simp_all

/-- C9: `getAlertLevelText` is a total function on integer levels agreeing with
the stated bucketing (≥ 5 ↦ Critical, 4 ↦ High, 3 ↦ Medium, < 3 ↦ Low), and it
is monotone: a ≤ b implies the label of a is no more severe than the label of b
under Low < Medium < High < Critical. -/
theorem getAlertLevelText_total_monotone :
    (∀ level : Int,
      (5 ≤ level → getAlertLevelText level = AlertSeverityLabel.critical) ∧
      (level = 4 → getAlertLevelText level = AlertSeverityLabel.high) ∧
      (level = 3 → getAlertLevelText level = AlertSeverityLabel.medium) ∧
      (level < 3 → getAlertLevelText level = AlertSeverityLabel.low)) ∧
    (∀ a b : Int, a ≤ b →
      severityRank (getAlertLevelText a) ≤ severityRank (getAlertLevelText b)) := by
  constructor
  · intro level
    refine ⟨fun h => ?_, fun h => ?_, fun h => ?_, fun h => ?_⟩ <;>
      · unfold getAlertLevelText
        split_ifs <;> first | rfl | omega
  · intro a b hab
    unfold getAlertLevelText
    split_ifs <;> simp [severityRank] <;> omega

/-- C9 (witness): the theorem applied at concrete levels 5 and 2. -/
theorem getAlertLevelText_total_monotone_witness :
    getAlertLevelText 5 = AlertSeverityLabel.critical ∧
    severityRank (getAlertLevelText 2) ≤ severityRank (getAlertLevelText 5) :=
  ⟨(getAlertLevelText_total_monotone.1 5).1 (by decide),
   getAlertLevelText_total_monotone.2 2 5 (by decide)⟩

/-- C6: the streaming consumer's final content is the initial content followed
by the concatenation, in arrival order, of exactly the payloads that precede
the first `[DONE]` payload (so `[DONE]` itself is never appended), and the loop
reports termination-by-`[DONE]` exactly when some `data: ` frame carries the
payload `[DONE]`. -/
theorem consumeStreamLines_spec :
    ∀ (lines : List String) (acc : String),
      consumeStreamLines lines acc =
        (acc ++ concatAll (payloadsBeforeDone lines), sawDone lines) := by
  intro lines
  induction lines with
  | nil =>
    intro acc
    simp [consumeStreamLines, payloadsBeforeDone, dataPayloads, sawDone, concatAll]
  | cons line rest ih =>
    intro acc
    by_cases hd : line.startsWith ("data: ")
    · have hdp : dataPayloads (line :: rest) = line.drop 6 :: dataPayloads rest := by
        rw [dataPayloads, if_pos hd]
      by_cases hdone : line.drop 6 = "[DONE]"
      · have h1 : consumeStreamLines (line :: rest) acc = (acc, true) := by
          rw [consumeStreamLines, if_pos hd, if_pos hdone]
        have h2 : payloadsBeforeDone (line :: rest) = [] := by
          rw [payloadsBeforeDone, hdp, List.takeWhile_cons]
          simp [hdone]
        have h3 : sawDone (line :: rest) = true := by
          rw [sawDone, hdp, List.any_cons]
          simp [hdone]
        rw [h1, h2, h3]
        simp [concatAll]
      · have h1 : consumeStreamLines (line :: rest) acc =
            consumeStreamLines rest (acc ++ line.drop 6) := by
          rw [consumeStreamLines, if_pos hd, if_neg hdone]
        have h2 : payloadsBeforeDone (line :: rest) =
            line.drop 6 :: payloadsBeforeDone rest := by
          rw [payloadsBeforeDone, hdp, List.takeWhile_cons, payloadsBeforeDone]
          simp [bne_iff_ne, hdone]
        have h3 : sawDone (line :: rest) = sawDone rest := by
          rw [sawDone, hdp, List.any_cons, sawDone]
          simp [hdone]
        rw [h1, h2, h3, ih, concatAll, String.append_assoc]
    · have hdp : dataPayloads (line :: rest) = dataPayloads rest := by
        rw [dataPayloads, if_neg hd]
      have h1 : consumeStreamLines (line :: rest) acc = consumeStreamLines rest acc := by
        rw [consumeStreamLines, if_neg hd]
      have h2 : payloadsBeforeDone (line :: rest) = payloadsBeforeDone rest := by
        unfold payloadsBeforeDone
        rw [hdp]
      have h3 : sawDone (line :: rest) = sawDone rest := by
        unfold sawDone
        rw [hdp]
      rw [h1, ih, h2, h3]

/-- C7: tips are ranked solely by generation order: the rendered tips sequence
presents the texts in exactly the order of the underlying tips list (no
re-sorting), and the displayed priorities are 1, 2, ..., n in order, so the tip
at position i is displayed with priority i + 1. -/
theorem renderTips_insertion_order :
    ∀ tips : List String,
      (renderTips tips).map RenderedTip.text = tips ∧
      (renderTips tips).map RenderedTip.priority = List.range' 1 tips.length := by
  intro tips
  exact ⟨renderTipsFrom_map_text 0 tips, renderTipsFrom_map_priority 0 tips⟩

/- ===== Spec-modelled pipeline orchestrator =====
The backend orchestrator module is not part of the source tree (only its
frontend callers and the project README describing `backend/agents/workflow.py`
are), so the definitions below are modelled from the design document. -/

/-- Modelled from the spec (§3): the three topic streams of the missing backend
orchestrator, one of legal, political, financial. -/
inductive Domain where
  | legal
  | political
  | financial
deriving DecidableEq, Repr

/-- Modelled from the spec (§3): a raw search hit (title and url retained; the
other fields play no role in the claims below). -/
structure Candidate where
  title : String
  url : String
deriving DecidableEq, Repr

/-- Modelled from the spec (§3): the categorized per-stream output; `items`
stands for the ordered categorized items of the stream. -/
structure DomainReport where
  domain : Domain
  items : List String
deriving DecidableEq, Repr

/-- Modelled from the spec (§4.1, §7): one search-provider call either succeeds
with candidates, is rate limited, or is unavailable. -/
inductive SearchOutcome where
  | ok (candidates : List Candidate)
  | rateLimited
  | searchUnavailable
deriving DecidableEq, Repr

/-- Modelled from the spec (§7): bounded retry around the search provider.
`searchFrom provider k n` performs at most `n` further attempts, numbered from
`k`, and returns the first successful candidate list, or `none` once the
attempt budget is exhausted. -/
def searchFrom (provider : Nat → SearchOutcome) : Nat → Nat → Option (List Candidate)
  | _, 0 => none
  | k, n + 1 =>
    match provider k with
    | .ok cs => some cs
    | _ => searchFrom provider (k + 1) n

/-- Modelled from the spec (§4.8, §7): one stream's stage sequence run to a
terminal per-stream state. A stream whose search exhausts its retries degrades
to an empty DomainReport (status recorded, not a pipeline failure); a
successful stream's report carries the material derived from its candidates
(the inner stages are collapsed to that derivation, which is all the claims
below depend on). -/
def runStream (provider : Nat → SearchOutcome) (maxAttempts : Nat) (d : Domain) :
    DomainReport :=
  match searchFrom provider 0 maxAttempts with
  | some cs => { domain := d, items := cs.map Candidate.title }
  | none => { domain := d, items := [] }

/-- Modelled from the spec (§4.8): terminal run states. -/
inductive RunStatus where
  | completed
  | failed
deriving DecidableEq, Repr

/-- Modelled from the spec (§4.8, §7): the fail-fast caller error. -/
inductive PipelineError where
  | invalidRequest
deriving DecidableEq, Repr

/-- Modelled from the spec (§3): the merged report, a mapping from requested
stream to its DomainReport, represented as an association list in request
order. -/
structure MergedReport where
  domain_reports : List (Domain × DomainReport)
deriving DecidableEq, Repr

/-- Modelled from the spec (§4.8): the value of a finished run. -/
structure PipelineRunResult where
  status : RunStatus
  merged : MergedReport
deriving DecidableEq, Repr

/-- Modelled from the spec (§4.8 runPipeline): the requested domains must be a
non-empty subset of the known streams (`InvalidRequest` otherwise; any list of
`Domain` values is a subset of the three known streams by construction); each
requested stream runs independently to success or degraded-empty, and the
merge records one entry per requested stream. -/
def runPipelineModel (providers : Domain → Nat → SearchOutcome) (maxAttempts : Nat)
    (domains : List Domain) : Except PipelineError PipelineRunResult :=
  if domains.isEmpty then .error .invalidRequest
  else .ok
    { status := .completed
      merged :=
        { domain_reports :=
            domains.map (fun d => (d, runStream (providers d) maxAttempts d)) } }

/-- The stream keys of a finished run's merged report. -/
def runKeys (r : Except PipelineError PipelineRunResult) : Option (List Domain) :=
  match r with
  | .ok res => some (res.merged.domain_reports.map Prod.fst)
  | .error _ => none

/-- A concrete provider family: political is always rate limited, legal and
financial succeed at once. -/
def sampleProviders : Domain → Nat → SearchOutcome :=
  fun d _ =>
    match d with
    | .political => .rateLimited
    | .legal => .ok [{ title := "t1", url := "u1" }]
    | .financial => .ok [{ title := "t2", url := "u2" }]

theorem searchFrom_rateLimited (provider : Nat → SearchOutcome)
    (h : ∀ k, provider k = SearchOutcome.rateLimited) :
    ∀ (n k : Nat), searchFrom provider k n = none := by
  intro n
  induction n with
  | zero => intro k; rfl
  | succ n ih =>
    intro k
    have hstep : searchFrom provider k (n + 1) =
        match provider k with
        | .ok cs => some cs
        | _ => searchFrom provider (k + 1) n := rfl
    rw [hstep, h k]
    exact ih (k + 1)

theorem searchFrom_first_ok (provider : Nat → SearchOutcome) (cs : List Candidate)
    (h : provider 0 = SearchOutcome.ok cs) (n : Nat) (hn : 0 < n) :
    searchFrom provider 0 n = some cs := by
  cases n with
  | zero => exact (Nat.lt_irrefl 0 hn).elim
  | succ n =>
    have hstep : searchFrom provider 0 (n + 1) =
        match provider 0 with
        | .ok cs => some cs
        | _ => searchFrom provider 1 n := rfl
    rw [hstep, h]

/-- C2: for every valid pipeline run (non-empty request), the merged report's
domain_reports mapping has exactly the requested stream keys, in request order,
no more and no fewer — independently of the providers, hence also when one or
more streams degraded to an empty report. -/
theorem runPipelineModel_keys (providers : Domain → Nat → SearchOutcome)
    (maxAttempts : Nat) (domains : List Domain) (h : domains ≠ []) :
    runKeys (runPipelineModel providers maxAttempts domains) = some domains := by
  have hne : domains.isEmpty = false := by
    cases domains with
    | nil => exact absurd rfl h
    | cons d ds => rfl
  unfold runPipelineModel
  rw [hne]
  simp [runKeys, List.map_map, Function.comp_def]

/-- C2 (witness): the theorem applied to a concrete two-stream request under
`sampleProviders`, where the political stream degrades to empty. -/
theorem runPipelineModel_keys_witness :
    ([Domain.legal, Domain.political] ≠ []) ∧
    runKeys (runPipelineModel sampleProviders 1 [Domain.legal, Domain.political]) =
      some [Domain.legal, Domain.political] :=
  ⟨by decide, runPipelineModel_keys sampleProviders 1 _ (by decide)⟩

/-- C3: if the search provider is rate limited on every call for the political
stream while the legal and financial providers succeed (on their first call),
the run still completes: the result is a Completed run whose political
DomainReport is empty (degraded) and whose legal and financial DomainReports
carry the material derived from their candidates; the failing stream does not
fail the run. -/
theorem rateLimited_stream_degrades_independently
    (providers : Domain → Nat → SearchOutcome) (maxAttempts : Nat)
    (cLegal cFinancial : List Candidate)
    (hPol : ∀ k, providers Domain.political k = SearchOutcome.rateLimited)
    (hLegal : providers Domain.legal 0 = SearchOutcome.ok cLegal)
    (hFin : providers Domain.financial 0 = SearchOutcome.ok cFinancial)
    (hAtt : 0 < maxAttempts) :
    runPipelineModel providers maxAttempts [Domain.legal, Domain.political, Domain.financial] =
      Except.ok
        { status := RunStatus.completed
          merged :=
            { domain_reports := [
                (Domain.legal,
                  { domain := Domain.legal, items := cLegal.map Candidate.title }),
                (Domain.political, { domain := Domain.political, items := [] }),
                (Domain.financial,
                  { domain := Domain.financial,
                    items := cFinancial.map Candidate.title })] } } := by
  have h1 : runStream (providers Domain.legal) maxAttempts Domain.legal =
      { domain := Domain.legal, items := cLegal.map Candidate.title } := by
    unfold runStream
    rw [searchFrom_first_ok (providers Domain.legal) cLegal hLegal maxAttempts hAtt]
  have h2 : runStream (providers Domain.political) maxAttempts Domain.political =
      { domain := Domain.political, items := [] } := by
    unfold runStream
    rw [searchFrom_rateLimited (providers Domain.political) hPol maxAttempts 0]
  have h3 : runStream (providers Domain.financial) maxAttempts Domain.financial =
      { domain := Domain.financial, items := cFinancial.map Candidate.title } := by
    unfold runStream
    rw [searchFrom_first_ok (providers Domain.financial) cFinancial hFin maxAttempts hAtt]
  unfold runPipelineModel
  rw [show ([Domain.legal, Domain.political, Domain.financial].isEmpty) = false from rfl]
  simp [h1, h2, h3]

/-- C3 (witness): the theorem applied to `sampleProviders`, whose political
provider is rate limited on every call. -/
theorem rateLimited_stream_degrades_independently_witness :
    runPipelineModel sampleProviders 1 [Domain.legal, Domain.political, Domain.financial] =
      Except.ok
        { status := RunStatus.completed
          merged :=
            { domain_reports := [
                (Domain.legal,
                  { domain := Domain.legal,
                    items := List.map Candidate.title [{ title := "t1", url := "u1" }] }),
                (Domain.political, { domain := Domain.political, items := [] }),
                (Domain.financial,
                  { domain := Domain.financial,
                    items := List.map Candidate.title [{ title := "t2", url := "u2" }] })] } } :=
  rateLimited_stream_degrades_independently sampleProviders 1 _ _
    (fun _ => rfl) rfl rfl (by decide)

/- ===== Tips & Alerts: data and spec-modelled stage ===== -/

/-- The `Alert` shape of the source (src/unnamed/part_015 lines 17-20 and
src/unnamed/part_013 lines 9-12): alert text plus a numeric alert_level. -/
structure Alert where
  alert : String
  alert_level : Int
deriving DecidableEq, Repr

/-- Modelled from the spec (§4.7): the business-severity classes of a candidate
alert, in the order the missing backend Tips & Alerts stage must respect. -/
inductive AlertClass where
  | complianceDeadline
  | regulatoryRisk
  | competitivePressure
deriving DecidableEq, Repr

/-- Modelled from the spec (§3 Alert, §4.7): the missing backend Tips & Alerts
stage's severity rubric; alert_level is an integer 1-5 and its assignment is
monotonic with business severity (compliance-deadline ≥ regulatory-risk ≥
competitive-pressure). -/
def alertLevelFor : AlertClass → Int
  | .complianceDeadline => 5
  | .regulatoryRisk => 4
  | .competitivePressure => 3

/-- Modelled from the spec (§4.7): a cross-domain finding the stage turns into
an alert. -/
structure ClassifiedFinding where
  text : String
  cls : AlertClass
deriving DecidableEq, Repr

/-- Modelled from the spec (§4.7): the missing backend Tips & Alerts stage
emits one Alert per finding of the merged report, with alert_level given by
the severity rubric, in stage output order. -/
def tipsAlertsStage (findings : List ClassifiedFinding) : List Alert :=
  findings.map (fun f => { alert := f.text, alert_level := alertLevelFor f.cls })

/-- The apostrophe character, written by code point so the alert texts below
can be copied from the source byte for byte. -/
def apos : String := String.mk [Char.ofNat 39]

/-- Alert 0 of the simulated stage output in src/ui/components/tips-alerts.tsx
lines 64-68 (UKE wholesale-deregulation: a regulatory-risk signal), level 4. -/
def mockAlert0 : Alert :=
  { alert := "UKE is advancing plans to deregulate wholesale access markets, potentially removing Orange Polska" ++ apos ++ "s LLU obligations. This creates both competitive risk and opportunityâ€”Play must act quickly to secure alternative infrastructure partnerships or expand its own fiber reach before market shifts."
    alert_level := 4 }

/-- Alert 1 of the simulated stage output in src/ui/components/tips-alerts.tsx
lines 69-72 (Orange revenue growth and capex: a competitive-pressure signal),
level 4. -/
def mockAlert1 : Alert :=
  { alert := "Orange Polska" ++ apos ++ "s Q3 2025 revenue growth (9.3% YoY) and increased capex in fiber and 5G signal aggressive market expansion. Play must accelerate its own network investment and bundling strategy to avoid losing high-value convergence customers."
    alert_level := 4 }

/-- Alert 2 of the simulated stage output in src/ui/components/tips-alerts.tsx
lines 73-76 (the ECL year-end enforcement deadline: a compliance-deadline
miss), level 5. -/
def mockAlert2 : Alert :=
  { alert := "Full enforcement of the Electronic Communications Law (ECL) requires immediate updates to customer contracts, pre-contract disclosures, and number porting processes by year-end. Non-compliance risks UOKiK penalties and reputational damage."
    alert_level := 5 }

/-- Alert 3 of the simulated stage output in src/ui/components/tips-alerts.tsx
lines 77-80 (tightening cybersecurity regulation: a regulatory-risk signal),
level 3. -/
def mockAlert3 : Alert :=
  { alert := "Cybersecurity regulations are tightening under EU and bilateral initiatives, with potential vendor restrictions on high-risk equipment. Play must audit its supply chain and ensure compliance to avoid future network deployment delays."
    alert_level := 3 }

/-- The simulated Tips & Alerts stage output rendered by
src/ui/components/tips-alerts.tsx, in stage output order. -/
def mockAlerts : List Alert :=
  [mockAlert0, mockAlert1, mockAlert2, mockAlert3]

/-- The fallback alert of src/unnamed/part_015 lines 58-61, shown when no tips
and alerts data could be loaded from storage. -/
def fallbackAlert : Alert :=
  { alert := "No alerts available - the tips and alerts data could not be loaded from storage."
    alert_level := 1 }

/-- C4: every alert emitted by the (spec-modelled) Tips & Alerts stage has an
alert_level between 1 and 5 inclusive; the concrete alert values appearing in
the source (the simulated stage output and the fallback alert) are in range
too. -/
theorem tipsAlertsStage_alert_level_range :
    (∀ (findings : List ClassifiedFinding) (a : Alert),
        a ∈ tipsAlertsStage findings → 1 ≤ a.alert_level ∧ a.alert_level ≤ 5) ∧
    (fallbackAlert :: mockAlerts).all
        (fun a => decide (1 ≤ a.alert_level ∧ a.alert_level ≤ 5)) = true := by
  constructor
  · intro findings a ha
    unfold tipsAlertsStage at ha
    rw [List.mem_map] at ha
    obtain ⟨f, _, rfl⟩ := ha
    cases f.cls <;> simp [alertLevelFor]
  · decide

/-- C4 (witness): the theorem applied to a one-finding input of the stage. -/
theorem tipsAlertsStage_alert_level_range_witness :
    1 ≤ (Alert.mk ("ECL deadline missed") (alertLevelFor AlertClass.complianceDeadline)).alert_level ∧
    (Alert.mk ("ECL deadline missed") (alertLevelFor AlertClass.complianceDeadline)).alert_level ≤ 5 :=
  tipsAlertsStage_alert_level_range.1
    [{ text := "ECL deadline missed", cls := AlertClass.complianceDeadline }] _
    (by decide)

/-- C5: alert severity is monotonic with business class: under the
spec-modelled rubric the compliance-deadline level dominates the
regulatory-risk level, which dominates the competitive-pressure level; and in
the concrete alert set of the source the compliance-deadline alert (mockAlert2,
the ECL enforcement deadline, level 5) has alert_level ≥ each
competitive-pressure or regulatory-risk alert (mockAlert1 = Orange
capex/revenue pressure, mockAlert0 = UKE deregulation, mockAlert3 =
cybersecurity regulation), and the regulatory-risk alert level is ≥ the
competitive-pressure alert level. -/
theorem compliance_alert_level_dominates :
    alertLevelFor AlertClass.complianceDeadline ≥ alertLevelFor AlertClass.regulatoryRisk ∧
    alertLevelFor AlertClass.regulatoryRisk ≥ alertLevelFor AlertClass.competitivePressure ∧
    alertLevelFor AlertClass.complianceDeadline ≥ alertLevelFor AlertClass.competitivePressure ∧
    mockAlert2.alert_level ≥ mockAlert1.alert_level ∧
    mockAlert2.alert_level ≥ mockAlert0.alert_level ∧
    mockAlert2.alert_level ≥ mockAlert3.alert_level ∧
    mockAlert0.alert_level ≥ mockAlert1.alert_level := by
  decide

/- ===== Embedding of the reports-table pagination
   (src/unnamed/part_006 lines 135-136) ===== -/

/-- JavaScript `list.slice(start, stop)` for 0 ≤ start ≤ stop: the elements at
indices start, ..., stop - 1. -/
def jsSlice {α : Type} (l : List α) (start stop : Nat) : List α :=
  (l.take stop).drop start

/-- `reports.slice((page - 1) * pageSize, page * pageSize)`
(src/unnamed/part_006 line 135). -/
def paginatedReports {α : Type} (reports : List α) (page pageSize : Nat) : List α :=
  jsSlice reports ((page - 1) * pageSize) (page * pageSize)

/-- `Math.ceil(reports.length / pageSize)` (src/unnamed/part_006 line 136),
written as the natural-number ceiling division, with which it agrees for
pageSize > 0. -/
def totalPages {α : Type} (reports : List α) (pageSize : Nat) : Nat :=
  (reports.length + pageSize - 1) / pageSize

theorem join_pages_aux {α : Type} (ps : Nat) :
    ∀ (k s : Nat) (l : List α), l.length ≤ k * ps →
      ((List.range' s k).map (fun p => (l.drop ((p - s) * ps)).take ps)).flatten = l := by
  intro k
  induction k with
  | zero =>
    intro s l hl
    have hnil : l = [] := by
      rw [Nat.zero_mul] at hl
      exact List.eq_nil_of_length_eq_zero (Nat.le_zero.mp hl)
    subst hnil
    rfl
  | succ k ih =>
    intro s l hl
    rw [List.range'_succ]
    simp only [List.map_cons, List.flatten_cons, Nat.sub_self, Nat.zero_mul, List.drop_zero]
    have hmap : (List.range' (s + 1) k).map (fun p => (l.drop ((p - s) * ps)).take ps)
        = (List.range' (s + 1) k).map
            (fun p => ((l.drop ps).drop ((p - (s + 1)) * ps)).take ps) := by
      apply List.map_congr_left
      intro p hp
      have hps : s + 1 ≤ p := (List.mem_range'_1.mp hp).1
      have harith : (p - s) * ps = ps + (p - (s + 1)) * ps := by
        have hsub : p - s = (p - (s + 1)) + 1 := by omega
        rw [hsub, Nat.succ_mul, Nat.add_comm]
      rw [List.drop_drop, ← harith]
    rw [hmap, ih (s + 1) (l.drop ps) (by
      have hlen : (l.drop ps).length = l.length - ps := List.length_drop ps l
      have hmul : (k + 1) * ps = k * ps + ps := Nat.succ_mul k ps
      omega)]
    exact List.take_append_drop ps l

/-- C10: for every reports list and positive page size, page p of the table is
the slice of the list from index (p-1)·pageSize up to but excluding
p·pageSize; totalPages is the ceiling of length / pageSize; and the pages
1, ..., totalPages, concatenated in order, give back exactly the reports list —
so consecutive pages partition the list without overlap or omission and
preserve its order. -/
theorem reportsTable_pagination {α : Type} (reports : List α) (pageSize : Nat)
    (hps : 0 < pageSize) :
    (∀ page : Nat, 1 ≤ page →
        paginatedReports reports page pageSize =
          (reports.drop ((page - 1) * pageSize)).take pageSize) ∧
    totalPages reports pageSize = reports.length ⌈/⌉ pageSize ∧
    ((List.range' 1 (totalPages reports pageSize)).map
        (fun p => paginatedReports reports p pageSize)).flatten = reports := by
  have hslice : ∀ page : Nat, 1 ≤ page →
      paginatedReports reports page pageSize =
        (reports.drop ((page - 1) * pageSize)).take pageSize := by
    intro p hp
    unfold paginatedReports jsSlice
    rw [List.drop_take]
    congr 1
    have hmul : p * pageSize = (p - 1) * pageSize + pageSize := by
      have hsub : p = (p - 1) + 1 := by omega
      conv_lhs => rw [hsub]
      rw [Nat.succ_mul]
    omega
  refine ⟨hslice, (Nat.ceilDiv_eq_add_pred_div reports.length pageSize).symm, ?_⟩
  have hlen : reports.length ≤ totalPages reports pageSize * pageSize := by
    unfold totalPages
    have hdm := Nat.div_add_mod (reports.length + pageSize - 1) pageSize
    have hmod : (reports.length + pageSize - 1) % pageSize < pageSize :=
      Nat.mod_lt _ hps
    rw [Nat.mul_comm]
    generalize hA : pageSize * ((reports.length + pageSize - 1) / pageSize) = A at hdm ⊢
    omega
  have hcongr : (List.range' 1 (totalPages reports pageSize)).map
        (fun p => paginatedReports reports p pageSize)
      = (List.range' 1 (totalPages reports pageSize)).map
          (fun p => (reports.drop ((p - 1) * pageSize)).take pageSize) := by
    apply List.map_congr_left
    intro p hp
    exact hslice p (List.mem_range'_1.mp hp).1
  rw [hcongr]
  exact join_pages_aux pageSize (totalPages reports pageSize) 1 reports hlen

/-- C10 (witness): the theorem applied to a concrete three-element list with
page size 2. -/
theorem reportsTable_pagination_witness :
    0 < 2 ∧
    ((List.range' 1 (totalPages (["a", "b", "c"] : List String) 2)).map
        (fun p => paginatedReports (["a", "b", "c"] : List String) p 2)).flatten =
      ["a", "b", "c"] :=
  ⟨by decide, (reportsTable_pagination (["a", "b", "c"] : List String) 2 (by decide)).2.2⟩

/-- C6 (witness): the characterization applied to a concrete frame list:
two payload frames, the `[DONE]` terminator, and a frame after it. -/
theorem consumeStreamLines_spec_witness :
    consumeStreamLines ["data: Hel", "data: lo", "data: [DONE]", "data: tail"] "" =
      ("" ++ concatAll (payloadsBeforeDone ["data: Hel", "data: lo", "data: [DONE]", "data: tail"]),
        sawDone ["data: Hel", "data: lo", "data: [DONE]", "data: tail"]) :=
  consumeStreamLines_spec ["data: Hel", "data: lo", "data: [DONE]", "data: tail"] ""

/-- C7 (witness): the ranking property applied to a concrete two-tip list. -/
theorem renderTips_insertion_order_witness :
    (renderTips ["expand fiber", "watch UKE"]).map RenderedTip.text =
      ["expand fiber", "watch UKE"] ∧
    (renderTips ["expand fiber", "watch UKE"]).map RenderedTip.priority =
      List.range' 1 (["expand fiber", "watch UKE"] : List String).length :=
  renderTips_insertion_order ["expand fiber", "watch UKE"]

/-- C8 (witness): the conversion property applied to a record with 2 alerts. -/
theorem reportImpactLevel_high_iff_witness :
    (reportImpactLevel 2 = ImpactLevel.high ↔ 0 < (2 : Int)) ∧
    (reportImpactLevel 2 = ImpactLevel.medium ↔ ¬ 0 < (2 : Int)) ∧
    reportImpactLevel 2 ≠ ImpactLevel.low ∧
    reportImpactLevel 2 ≠ ImpactLevel.critical :=
  reportImpactLevel_high_iff 2
